import Mathlib

/-!
Verification of the quads-lib HTTP client (src/quads_lib/quads.py) against its
natural-language specification.  The Python module is shallowly embedded:
JSON values, the response-classification logic of QuadsBase._make_request,
client session state mutated by login/logout, the retry policy constructed in
QuadsBase.__init__, urllib.parse.urljoin as used for path joining,
urllib.parse.urlencode as used by the filter operations, and the
pathlib-based endpoint builders.
-/

set_option maxRecDepth 4000

namespace QuadsLib

/-- A decoded JSON value, as produced by Response.json() in Python.
Python maps JSON null to None, objects to dict, arrays to list. -/
inductive Json where
  | null : Json
  | bool (b : Bool) : Json
  | num (n : Int) : Json
  | str (s : String) : Json
  | arr (elems : List Json) : Json
  | obj (fields : List (String × Json)) : Json

/-- Python dict.get(key) on a decoded JSON object: the first binding of the
key, or None (here: Option.none) when the key is absent. -/
def Json.get (fields : List (String × Json)) (key : String) : Option Json :=
  match fields with
  | [] => none
  | (k, v) :: rest => if k = key then some v else Json.get rest key

/-- An HTTP response as seen by _make_request: the status line code and the
result of attempting to decode the body as JSON (none when Response.json()
raises JSONDecodeError). -/
structure HttpResponse where
  status : Nat
  jsonBody : Option Json

/-- HTTP verbs used by the client. -/
inductive Method where
  | GET | POST | PATCH | DELETE
deriving DecidableEq, Repr

/-- Outcome of one call to QuadsBase._make_request once a response has been
received.  APIServerException and APIBadRequest carry the exception argument;
the argument of APIBadRequest is either the Python string passed literally
(parseFailure) or the result of response_json.get("message") which may be
absent (none).  attributeError models the uncaught AttributeError raised by
calling .get on a decoded body that is not a dict; decodeError models the
uncaught JSONDecodeError from the final return _response.json(). -/
inductive RequestResult where
  | ok (v : Json) : RequestResult
  | serverException (msg : String) : RequestResult
  | badRequest (msg : Option Json) : RequestResult
  | badRequestParseFailure (msg : String) : RequestResult
  | attributeError : RequestResult
  | decodeError : RequestResult

/-- The response-classification logic of QuadsBase._make_request
(quads.py lines 53-61), applied to the response received for the given verb:
status 500 raises APIServerException("Check the flask server logs");
status 400 decodes the body, raising APIBadRequest("Failed to parse response")
on JSONDecodeError and APIBadRequest(response_json.get("message")) otherwise
(an AttributeError when the decoded body is not a dict); every other status
returns the decoded JSON body. -/
def make_request (_method : Method) (r : HttpResponse) : RequestResult :=
  if r.status = 500 then
    .serverException "Check the flask server logs"
  else if r.status = 400 then
    match r.jsonBody with
    | none => .badRequestParseFailure "Failed to parse response"
    | some (.obj fields) => .badRequest (Json.get fields "message")
    | some _ => .attributeError
  else
    match r.jsonBody with
    | none => .decodeError
    | some j => .ok j

mutual

/-- Python repr() of a decoded JSON value, as used when an f-string
interpolates a non-string value (lists and dicts shown with single-quoted
string elements; quote escaping inside strings is not modelled since no
claim exercises it). -/
def pyRepr : Json → String
  | .null => "None"
  | .bool true => "True"
  | .bool false => "False"
  | .num n => toString n
  | .str s => "'" ++ s ++ "'"
  | .arr xs => "[" ++ pyReprItems xs ++ "]"
  | .obj kvs => "\x7b" ++ pyReprFields kvs ++ "\x7d"

def pyReprItems : List Json → String
  | [] => ""
  | [x] => pyRepr x
  | x :: y :: xs => pyRepr x ++ ", " ++ pyReprItems (y :: xs)

def pyReprFields : List (String × Json) → String
  | [] => ""
  | [(k, v)] => "'" ++ k ++ "': " ++ pyRepr v
  | (k, v) :: y :: xs => "'" ++ k ++ "': " ++ pyRepr v ++ ", " ++ pyReprFields (y :: xs)

end

/-- Python str() of self.token (an Option Json), as interpolated by the
f-string f"Bearer \x7bself.token\x7d": None prints as "None", a str prints
as itself, anything else as its repr. -/
def pyStr : Option Json → String
  | none => "None"
  | some (.str s) => s
  | some j => pyRepr j

/-- Python == between the result of dict.get (None when absent) and an int
literal: True only for an equal int, or a bool (bools are ints in Python). -/
def pyEqInt : Option Json → Int → Bool
  | some (.num n), m => n = m
  | some (.bool b), m => (if b then (1 : Int) else 0) = m
  | _, _ => false

/-- dict update with a single key: replace the binding in place when the key
is present, append it otherwise. -/
def headersUpdate (hs : List (String × String)) (key value : String) :
    List (String × String) :=
  if key ∈ hs.map Prod.fst then
    hs.map (fun kv => if kv.1 = key then (key, value) else kv)
  else
    hs ++ [(key, value)]

/-- dict lookup returning the first binding of the key, None when absent. -/
def headersLookup (hs : List (String × String)) (key : String) :
    Option String :=
  match hs with
  | [] => none
  | (k, v) :: rest => if k = key then some v else headersLookup rest key

/-- The mutable client state of QuadsBase: self.token and the persistent
session headers session.headers (the dict mutated by login and cleared by
logout).  The unused instance attribute self.headers = \x7b\x7d is never read
and is not modelled. -/
structure ClientState where
  token : Option Json
  sessionHeaders : List (String × String)

/-- QuadsBase.__init__ (lines 27-36): token is None; the session starts with
the HTTP library's default headers (which carry no Authorization key). -/
def initState (defaults : List (String × String)) : ClientState :=
  ⟨none, defaults⟩

/-- The request _make_request sends (lines 47-52): session.request with the
persistent session headers; no auth keyword, so no per-request Basic
credentials are attached. -/
structure SentRequest where
  method : Method
  url : String
  headers : List (String × String)
  usesBasicAuth : Bool

def request_sent (st : ClientState) (m : Method) (url : String) : SentRequest :=
  ⟨m, url, st.sessionHeaders, false⟩

/-- The request QuadsApi.login sends (line 93): session.post with
auth=self.auth, i.e. HTTP Basic credentials, plus the session headers. -/
def login_request_sent (st : ClientState) (url : String) : SentRequest :=
  ⟨.POST, url, st.sessionHeaders, true⟩

/-- QuadsApi.login (lines 91-98) applied to the decoded JSON body of the
login response: when json_response.get("status_code") == 201, store
json_response.get("auth_token") in self.token and update the session headers
with Authorization: Bearer <token>; otherwise leave the state unchanged.
Either way return the decoded body.  none models the uncaught AttributeError
raised by .get when the decoded body is not a dict. -/
def login (st : ClientState) (resp : Json) : Option (ClientState × Json) :=
  match resp with
  | .obj fields =>
    if pyEqInt (Json.get fields "status_code") 201 then
      let tok := Json.get fields "auth_token"
      some ({ token := tok,
              sessionHeaders := headersUpdate st.sessionHeaders
                "Authorization" ("Bearer " ++ pyStr tok) }, resp)
    else
      some (st, resp)
  | _ => none

/-- QuadsApi.logout (lines 100-105): POST logout through _make_request; when
the decoded body's status_code == 200, set self.token = None and clear the
session headers entirely; otherwise leave the state unchanged.  The second
component is the outcome propagated to the caller (.attributeError when the
decoded body is not a dict, since .get is called on it). -/
def logout (st : ClientState) (r : HttpResponse) : ClientState × RequestResult :=
  match make_request .POST r with
  | .ok (.obj fields) =>
    if pyEqInt (Json.get fields "status_code") 200 then
      (⟨none, []⟩, .ok (.obj fields))
    else
      (st, .ok (.obj fields))
  | .ok _ => (st, .attributeError)
  | e => (st, e)

/-- The retry policy value constructed in QuadsBase.__init__ (line 32):
Retry(total=5, backoff_factor=1, status_forcelist=[502, 503, 504]),
mounted on the session. -/
structure Retry where
  total : Nat
  backoff_factor : Nat
  status_forcelist : List Nat

def quadsRetries : Retry :=
  { total := 5, backoff_factor := 1, status_forcelist := [502, 503, 504] }

/-- Modelled from the spec: the retry engine executing the Retry policy
lives in the HTTP library, not in this repository.  The spec says a
response whose status is in the forcelist is retried, up to the policy's
total attempt budget.  runAttempts consumes the stream of responses the
network yields, one per attempt, stopping at the first response whose
status is outside the forcelist or when the budget is exhausted, and
returns how many network attempts were made together with the response
handed on for classification. -/
def runAttempts (forcelist : List Nat) :
    Nat → List HttpResponse → Nat × Option HttpResponse
  | _, [] => (0, none)
  | 0, _ :: _ => (0, none)
  | 1, r :: _ => (1, some r)
  | n + 2, r :: rest =>
    if r.status ∈ forcelist then
      let step := runAttempts forcelist (n + 1) rest
      (step.1 + 1, step.2)
    else
      (1, some r)

/-- Modelled from the spec: the delay before the k-th retry under the
policy, exponential backoff starting at backoff_factor time units and
doubling each attempt. -/
def backoffTime (p : Retry) (k : Nat) : Nat :=
  p.backoff_factor * 2 ^ k

/-- Characters urllib.parse.quote never encodes: ASCII letters, digits, and
the four marks underscore, dot, hyphen, tilde. -/
def isAlwaysSafe (c : Char) : Bool :=
  (('A' ≤ c && c ≤ 'Z') || ('a' ≤ c && c ≤ 'z') || ('0' ≤ c && c ≤ '9')
    || c = '_' || c = '.' || c = '-' || c = '~')

/-- Uppercase hexadecimal digit for a value below 16, as used by
percent-encoding. -/
def hexDigit (n : Nat) : Char :=
  if n < 10 then Char.ofNat (48 + n) else Char.ofNat (55 + n)

/-- UTF-8 encoding of a character as its byte values, as Python encodes
non-safe characters before percent-encoding them. -/
def utf8Bytes (c : Char) : List Nat :=
  let n := c.toNat
  if n < 128 then [n]
  else if n < 2048 then [192 + n / 64, 128 + n % 64]
  else if n < 65536 then [224 + n / 4096, 128 + (n / 64) % 64, 128 + n % 64]
  else [240 + n / 262144, 128 + (n / 4096) % 64, 128 + (n / 64) % 64,
    128 + n % 64]

/-- Percent-encoding of one byte: a percent sign and two uppercase hex
digits. -/
def percentByte (b : Nat) : List Char :=
  ['%', hexDigit (b / 16), hexDigit (b % 16)]

/-- urllib.parse.quote_plus with the urlencode defaults (safe set empty):
always-safe characters pass through, a space becomes a plus, every other
character is percent-encoded byte by byte from its UTF-8 form. -/
def quote_plus (s : String) : String :=
  String.mk (s.data.flatMap fun c =>
    if isAlwaysSafe c then [c]
    else if c = ' ' then ['+']
    else (utf8Bytes c).flatMap percentByte)

/-- urllib.parse.urlencode over the items of the filter mapping (modelled as
an association list in iteration order): key=value pairs quoted with
quote_plus and joined by ampersands. -/
def urlencode (data : List (String × String)) : String :=
  String.intercalate "&"
    (data.map fun kv => quote_plus kv.1 ++ "=" ++ quote_plus kv.2)

/-- QuadsApi.filter_hosts (lines 116-119): GET hosts?<urlencode(data)>. -/
def filter_hosts_request (data : List (String × String)) : Method × String :=
  (.GET, "hosts?" ++ urlencode data)

/-- QuadsApi.filter_clouds (lines 121-124): GET clouds?<urlencode(data)>. -/
def filter_clouds_request (data : List (String × String)) : Method × String :=
  (.GET, "clouds?" ++ urlencode data)

/-- QuadsApi.filter_assignments (lines 126-129): GET
assignments?<urlencode(data)>. -/
def filter_assignments_request (data : List (String × String)) :
    Method × String :=
  (.GET, "assignments?" ++ urlencode data)

/-- QuadsApi.filter_available (lines 247-249): GET
available?<urlencode(data)>. -/
def filter_available_request (data : List (String × String)) :
    Method × String :=
  (.GET, "available?" ++ urlencode data)

/-- Does the needle occur at the head of the haystack? (helper for the
Python substring operator). -/
def matchesHead : List Char → List Char → Bool
  | [], _ => true
  | _ :: _, [] => false
  | a :: as, b :: bs => a = b && matchesHead as bs

/-- The Python operator needle in haystack on strings: substring
containment. -/
def substrSearch (needle : List Char) : List Char → Bool
  | [] => matchesHead needle []
  | c :: rest => matchesHead needle (c :: rest) || substrSearch needle rest

/-- QuadsBase.__init__ line 33: session.mount("http://",
HTTPAdapter(max_retries=retries)) installs the retry policy only for URLs
starting with http://; any other URL (in particular an https base URL)
keeps the session's default adapter, which performs no retries. -/
def mountedRetries (url : String) : Option Retry :=
  if matchesHead "http://".data url.data then some quadsRetries else none

/-- One request through the session: the adapter chosen by the URL's
prefix runs the retry loop when the retry policy is mounted for it;
otherwise the default adapter makes a single attempt and hands the first
response on unconditionally. -/
def runSessionAttempts (url : String) (responses : List HttpResponse) :
    Nat × Option HttpResponse :=
  match mountedRetries url with
  | some p => runAttempts p.status_forcelist p.total responses
  | none =>
    match responses with
    | [] => (0, none)
    | r :: _ => (1, some r)

/-- QuadsApi.is_available (lines 150-154), request part: GET
available/<hostname>?<urlencode(data)>. -/
def is_available_request (hostname : String)
    (data : List (String × String)) : Method × String :=
  (.GET, "available/" ++ hostname ++ "?" ++ urlencode data)

/-- QuadsApi.is_available (line 154), result part: True if "true" in
json_response else False, applied to the decoded JSON string value. -/
def is_available_result (json_response : String) : Bool :=
  if substrSearch "true".data json_response.data then true else false

/-- A Python value passed to a pathlib join: the methods under test pass
either a str or an int. -/
inductive PyVal where
  | str (s : String) : PyVal
  | int (n : Int) : PyVal

/-- pathlib joining, Path(p) / seg: a str segment is appended (the segment
strings the claims exercise are plain names, so the append form suffices);
joining with an int is a TypeError, raised eagerly before any request is
made. -/
def pathDiv (p : String) : PyVal → Except String String
  | .str s => .ok (p ++ "/" ++ s)
  | .int _ => .error "TypeError"

/-- QuadsApi.remove_memory (lines 314-317): DELETE on Path("memory") /
memory_id, the id joined without str conversion. -/
def remove_memory (memory_id : Int) : Except String (Method × String) :=
  (pathDiv "memory" (.int memory_id)).map fun e => (Method.DELETE, e)

/-- QuadsApi.remove_disk (lines 330-333): DELETE on Path("disks") /
hostname / disk_id, the id joined without str conversion. -/
def remove_disk (hostname : String) (disk_id : Int) :
    Except String (Method × String) :=
  ((pathDiv "disks" (.str hostname)).bind fun p =>
    pathDiv p (.int disk_id)).map fun e => (Method.DELETE, e)

/-- QuadsApi.remove_processor (lines 341-344): DELETE on
Path("processors") / processor_id, the id joined without str conversion. -/
def remove_processor (processor_id : Int) : Except String (Method × String) :=
  (pathDiv "processors" (.int processor_id)).map fun e => (Method.DELETE, e)

/-- Scheme part of a URL: everything before the first colon, which in the
URLs _make_request joins (scheme://netloc[/path]) is followed by two
slashes.  Returns the scheme and the remainder after the two slashes. -/
def splitScheme : List Char → Option (List Char × List Char)
  | [] => none
  | c :: rest =>
    if c = ':' then
      match rest with
      | '/' :: '/' :: r => some ([], r)
      | _ => none
    else
      (splitScheme rest).map fun p => (c :: p.1, p.2)

/-- Authority (netloc) part after scheme://, ending at the first slash; the
remainder is the path. -/
def splitAuthority : List Char → List Char × List Char
  | [] => ([], [])
  | c :: rest =>
    if c = '/' then ([], c :: rest)
    else
      let p := splitAuthority rest
      (c :: p.1, p.2)

/-- A path truncated to its last slash inclusive, as RFC 3986 merging (and
urllib.parse.urljoin) keeps everything up to the last segment when joining
a relative reference. -/
def dropLastSeg (path : List Char) : List Char :=
  (path.reverse.dropWhile (fun c => !(c = '/'))).reverse

/-- urllib.parse.urljoin restricted to how _make_request (line 49) uses it:
the base URL is absolute (scheme://netloc[/path]) and the endpoint is a
relative reference without scheme or authority.  An empty endpoint returns
the base; an endpoint starting with a slash replaces the base path
entirely; otherwise the endpoint is merged onto the base path with its
last segment dropped (a slash is inserted when the base path is empty).
Dot-segment normalization is not modelled: no endpoint of the client
contains dot segments. -/
def urljoinChars (base rel : List Char) : List Char :=
  match splitScheme base with
  | none => rel
  | some (sch, rest) =>
    let auth := splitAuthority rest
    match rel with
    | [] => base
    | '/' :: rs => sch ++ ':' :: '/' :: '/' :: (auth.1 ++ '/' :: rs)
    | c :: cs =>
      let merged :=
        if auth.2 = [] then '/' :: c :: cs
        else dropLastSeg auth.2 ++ c :: cs
      sch ++ ':' :: '/' :: '/' :: (auth.1 ++ merged)

/-- urljoin on strings, as called by _make_request on base_url and
endpoint. -/
def urljoin (base rel : String) : String :=
  String.mk (urljoinChars base.data rel.data)

end QuadsLib

namespace QuadsLib

/-- C1: for every verb, a status-500 response fails with APIServerException
whose message is exactly "Check the flask server logs", whatever the body. -/
theorem c1_status_500_server_exception (m : Method) (r : HttpResponse)
    (h : r.status = 500) :
    make_request m r = .serverException "Check the flask server logs" := by
  simp [make_request, h]

/-- Witness for C1 at a concrete verb and response. -/
theorem c1_status_500_server_exception_witness :
    make_request .GET ⟨500, some (.str "ignored")⟩ =
      .serverException "Check the flask server logs" :=
  c1_status_500_server_exception .GET ⟨500, some (.str "ignored")⟩ rfl

/-- C2 counterexample: a status-400 response whose body decodes as JSON but
not as a JSON object (here the array []) makes _make_request raise an
uncaught AttributeError from response_json.get("message"), not an
APIBadRequest, so the claim as stated (quantified over every body that
decodes as JSON) fails. -/
theorem c2_counterexample :
    make_request .GET ⟨400, some (.arr [])⟩ = .attributeError ∧
    (∀ msg, RequestResult.attributeError ≠ .badRequest msg) ∧
    (∀ s, RequestResult.attributeError ≠ .badRequestParseFailure s) :=
  ⟨rfl, fun _ h => RequestResult.noConfusion h,
    fun _ h => RequestResult.noConfusion h⟩

/-- C2 (amended): for every verb, a status-400 response whose body decodes
as a JSON object fails with APIBadRequest carrying the value of the body
field "message" (absent when the field is missing), and a status-400
response whose body fails to decode as JSON fails with
APIBadRequest("Failed to parse response"). -/
theorem c2_status_400_bad_request (m : Method) (r : HttpResponse)
    (h : r.status = 400) :
    (∀ fields, r.jsonBody = some (.obj fields) →
      make_request m r = .badRequest (Json.get fields "message")) ∧
    (r.jsonBody = none →
      make_request m r = .badRequestParseFailure "Failed to parse response") := by
  constructor
  · intro fields hb
    simp [make_request, h, hb]
  · intro hb
    simp [make_request, h, hb]

lemma headersLookup_map_update (hs : List (String × String)) (k v : String)
    (h : k ∈ hs.map Prod.fst) :
    headersLookup (hs.map fun kv => if kv.1 = k then (k, v) else kv) k
      = some v := by
  induction hs with
  | nil => simp at h
  | cons p rest ih =>
    by_cases hp : p.1 = k
    · simp only [List.map_cons]
      rw [if_pos hp]
      simp [headersLookup]
    · have h2 : k ∈ rest.map Prod.fst := by
        rcases List.mem_map.mp h with ⟨q, hq, hqk⟩
        rcases List.mem_cons.mp hq with hq | hq
        · exact absurd (hq ▸ hqk) hp
        · exact List.mem_map.mpr ⟨q, hq, hqk⟩
      simp only [List.map_cons]
      rw [if_neg hp]
      simpa [headersLookup, hp] using ih h2

lemma headersLookup_append_single (hs : List (String × String)) (k v : String)
    (h : k ∉ hs.map Prod.fst) :
    headersLookup (hs ++ [(k, v)]) k = some v := by
  induction hs with
  | nil => simp [headersLookup]
  | cons p rest ih =>
    have hp : p.1 ≠ k := fun hpk => h (List.mem_map.mpr ⟨p, List.mem_cons_self _ _, hpk⟩)
    have h2 : k ∉ rest.map Prod.fst := fun hk => by
      rcases List.mem_map.mp hk with ⟨q, hq, hqk⟩
      exact h (List.mem_map.mpr ⟨q, List.mem_cons_of_mem _ hq, hqk⟩)
    simpa [headersLookup, hp] using ih h2

lemma headersLookup_update (hs : List (String × String)) (k v : String) :
    headersLookup (headersUpdate hs k v) k = some v := by
  unfold headersUpdate
  split
  · exact headersLookup_map_update hs k v (by assumption)
  · exact headersLookup_append_single hs k v (by assumption)

lemma pyEqInt_true_iff (x : Option Json) (m : Int) (h0 : m ≠ 0) (h1 : m ≠ 1) :
    pyEqInt x m = true ↔ x = some (.num m) := by
  cases x with
  | none => simp [pyEqInt]
  | some j =>
    cases j with
    | bool b => cases b <;> simp [pyEqInt, eq_comm, h0, h1]
    | num n => simp [pyEqInt, eq_comm]
    | _ => simp [pyEqInt]

/-- Witness for C2: a 400 response with body obj [("message", "X")] yields
APIBadRequest("X"), and a 400 response with an undecodable body yields
APIBadRequest("Failed to parse response"). -/
theorem c2_status_400_bad_request_witness :
    make_request .POST ⟨400, some (.obj [("message", .str "X")])⟩ =
      .badRequest (some (.str "X")) ∧
    make_request .POST ⟨400, none⟩ =
      .badRequestParseFailure "Failed to parse response" :=
  ⟨(c2_status_400_bad_request .POST ⟨400, some (.obj [("message", .str "X")])⟩
      rfl).1 [("message", .str "X")] rfl,
   (c2_status_400_bad_request .POST ⟨400, none⟩ rfl).2 rfl⟩

/-- C4: when the login response body is a JSON object with status_code 201
and auth_token T, login stores T and every subsequent request carries the
session header Authorization: Bearer T; a later logout whose decoded body
has status_code 200 clears the stored token and all session headers, so a
subsequent request carries no Authorization header at all. -/
theorem c4_login_logout_lifecycle (st : ClientState)
    (fields : List (String × Json)) (T : String)
    (h1 : Json.get fields "status_code" = some (.num 201))
    (h2 : Json.get fields "auth_token" = some (.str T)) :
    ∃ st2,
      login st (.obj fields) = some (st2, .obj fields) ∧
      st2.token = some (.str T) ∧
      (∀ m url, headersLookup (request_sent st2 m url).headers "Authorization"
          = some ("Bearer " ++ T)) ∧
      (∀ r outFields,
        make_request .POST r = .ok (.obj outFields) →
        Json.get outFields "status_code" = some (.num 200) →
        (logout st2 r).1.token = none ∧
        (logout st2 r).1.sessionHeaders = [] ∧
        ∀ m url,
          headersLookup (request_sent (logout st2 r).1 m url).headers
            "Authorization" = none) := by
  refine ⟨{ token := some (.str T),
            sessionHeaders := headersUpdate st.sessionHeaders "Authorization"
              ("Bearer " ++ T) }, ?_, rfl, ?_, ?_⟩
  · simp [login, h1, h2, pyEqInt, pyStr]
  · intro m url
    exact headersLookup_update st.sessionHeaders "Authorization" ("Bearer " ++ T)
  · intro r outFields hmk hsc
    have hlogout : (logout
        { token := some (.str T),
          sessionHeaders := headersUpdate st.sessionHeaders "Authorization"
            ("Bearer " ++ T) } r).1 = ⟨none, []⟩ := by
      simp [logout, hmk, hsc, pyEqInt]
    rw [hlogout]
    exact ⟨rfl, rfl, fun m url => rfl⟩

/-- Witness for C4 at a concrete state and responses. -/
theorem c4_login_logout_lifecycle_witness :
    ∃ st2,
      login (initState []) (.obj [("status_code", .num 201),
        ("auth_token", .str "T")]) =
        some (st2, .obj [("status_code", .num 201), ("auth_token", .str "T")]) ∧
      st2.token = some (.str "T") ∧
      (∀ m url, headersLookup (request_sent st2 m url).headers "Authorization"
          = some ("Bearer " ++ "T")) ∧
      (∀ r outFields,
        make_request .POST r = .ok (.obj outFields) →
        Json.get outFields "status_code" = some (.num 200) →
        (logout st2 r).1.token = none ∧
        (logout st2 r).1.sessionHeaders = [] ∧
        ∀ m url,
          headersLookup (request_sent (logout st2 r).1 m url).headers
            "Authorization" = none) :=
  c4_login_logout_lifecycle (initState [])
    [("status_code", .num 201), ("auth_token", .str "T")] "T" rfl rfl

/-- C10: a login response body whose status_code is not 201 is returned
unchanged and leaves the stored token and session headers untouched, and a
logout response whose decoded body has a status_code other than 200 is
returned while leaving the state untouched. -/
theorem c10_non_success_leaves_state_unchanged (st : ClientState)
    (fields outFields : List (String × Json)) (r : HttpResponse)
    (h1 : Json.get fields "status_code" ≠ some (.num 201))
    (h2 : make_request .POST r = .ok (.obj outFields))
    (h3 : Json.get outFields "status_code" ≠ some (.num 200)) :
    login st (.obj fields) = some (st, .obj fields) ∧
    logout st r = (st, .ok (.obj outFields)) := by
  have e1 : pyEqInt (Json.get fields "status_code") 201 = false := by
    rcases hb : pyEqInt (Json.get fields "status_code") 201 with _ | _
    · rfl
    · exact absurd ((pyEqInt_true_iff _ 201 (by norm_num) (by norm_num)).mp hb) h1
  have e3 : pyEqInt (Json.get outFields "status_code") 200 = false := by
    rcases hb : pyEqInt (Json.get outFields "status_code") 200 with _ | _
    · rfl
    · exact absurd ((pyEqInt_true_iff _ 200 (by norm_num) (by norm_num)).mp hb) h3
  constructor
  · simp [login, e1]
  · simp [logout, h2, e3]

/-- Witness for C10: login answered with status_code 400 and logout answered
with a body whose status_code is 401 both leave the state unchanged. -/
theorem c10_non_success_leaves_state_unchanged_witness :
    login (initState []) (.obj [("status_code", .num 400)]) =
      some (initState [], .obj [("status_code", .num 400)]) ∧
    logout (initState []) ⟨200, some (.obj [("status_code", .num 401)])⟩ =
      (initState [], .ok (.obj [("status_code", .num 401)])) :=
  c10_non_success_leaves_state_unchanged (initState [])
    [("status_code", .num 400)] [("status_code", .num 401)]
    ⟨200, some (.obj [("status_code", .num 401)])⟩
    (by simp [Json.get]) rfl (by simp [Json.get])

/-- C6 counterexample: with the library's default session headers (no
Authorization key) and no login performed, a GET issued through
_make_request carries neither per-request Basic credentials nor any
Authorization header: it carries no credentials at all, contradicting the
claim that every request carries credentials. -/
theorem c6_counterexample :
    (request_sent (initState []) .GET "http://example.com/hosts").usesBasicAuth
      = false ∧
    headersLookup
      (request_sent (initState []) .GET "http://example.com/hosts").headers
      "Authorization" = none :=
  ⟨rfl, rfl⟩

/-- C6 (amended): _make_request never attaches per-request Basic
credentials; only the login request itself carries HTTP Basic credentials.
Requests carry only the persistent session headers, so before any successful
login (session headers without an Authorization key) a request carries no
credentials, and only after a successful login do requests carry the Bearer
token header. -/
theorem c6_request_credentials (defaults : List (String × String))
    (h : headersLookup defaults "Authorization" = none) :
    (∀ st m url, (request_sent st m url).usesBasicAuth = false) ∧
    (∀ st url, (login_request_sent st url).usesBasicAuth = true) ∧
    (∀ m url,
      headersLookup (request_sent (initState defaults) m url).headers
        "Authorization" = none) :=
  ⟨fun _ _ _ => rfl, fun _ _ => rfl, fun _ _ => h⟩

/-- C3 counterexample: the retry adapter is mounted only on the http://
prefix (line 33), so a request to an https URL uses the default adapter and
a 503 response is handed on after a single network attempt, never retried,
falsifying the claim's quantification over every request. -/
theorem c3_counterexample :
    mountedRetries "https://quads.example.com/api/v3/" = none ∧
    runSessionAttempts "https://quads.example.com/api/v3/"
        [⟨503, none⟩, ⟨200, some (.str "ok")⟩] = (1, some ⟨503, none⟩) ∧
    (503 : Nat) ∈ quadsRetries.status_forcelist :=
  ⟨rfl, rfl, by decide⟩

/-- C3 (amended): the retry policy of QuadsBase.__init__ (total budget 5,
backoff factor 1, forcelist [502, 503, 504]) is mounted only for http://
URLs.  For a request whose URL starts with http://: three consecutive 503
responses followed by a 200 response make exactly four underlying network
attempts and yield exactly one successful decoded result; a response with a
4xx status is never retried; and the backoff delays start at 1 time unit
and double each attempt.  A request whose URL does not start with http://
(in particular an https base URL) is never retried: its first response is
handed on after a single attempt. -/
theorem c3_retry_policy (m : Method) (url : String)
    (hurl : matchesHead "http://".data url.data = true)
    (r1 r2 r3 r4 : HttpResponse) (j : Json)
    (hs1 : r1.status = 503) (hs2 : r2.status = 503) (hs3 : r3.status = 503)
    (hs4 : r4.status = 200) (hb4 : r4.jsonBody = some j) :
    runSessionAttempts url [r1, r2, r3, r4] = (4, some r4) ∧
    make_request m r4 = .ok j ∧
    (∀ (r : HttpResponse) (rest : List HttpResponse) (n : Nat),
      1 ≤ n → 400 ≤ r.status → r.status ≤ 499 →
      runAttempts quadsRetries.status_forcelist n (r :: rest) = (1, some r)) ∧
    (∀ (url2 : String) (r : HttpResponse) (rest : List HttpResponse),
      mountedRetries url2 = none →
      runSessionAttempts url2 (r :: rest) = (1, some r)) ∧
    quadsRetries.total = 5 ∧
    backoffTime quadsRetries 0 = 1 ∧
    (∀ k, backoffTime quadsRetries (k + 1) = 2 * backoffTime quadsRetries k) := by
  refine ⟨?_, ?_, ?_, ?_, rfl, rfl, ?_⟩
  · simp [runSessionAttempts, mountedRetries, hurl, quadsRetries,
      runAttempts, hs1, hs2, hs3, hs4]
  · simp [make_request, hs4, hb4]
  · intro r rest n hn h4 h5
    have hmem : r.status ∉ quadsRetries.status_forcelist := by
      have hfl : quadsRetries.status_forcelist = [502, 503, 504] := rfl
      rw [hfl]
      intro hmem
      simp only [List.mem_cons, List.mem_singleton, List.not_mem_nil,
        or_false] at hmem
      omega
    match n, hn with
    | 1, _ => rfl
    | n + 2, _ => simp [runAttempts, hmem]
  · intro url2 r rest h
    simp [runSessionAttempts, h]
  · intro k
    simp [backoffTime, pow_succ]
    ring

/-- Witness for C3 at an http:// URL and concrete responses: 503, 503, 503
then 200 with body "ok". -/
theorem c3_retry_policy_witness :
    runSessionAttempts "http://quads.example.com/api/v3/"
        [⟨503, none⟩, ⟨503, none⟩, ⟨503, none⟩, ⟨200, some (.str "ok")⟩] =
      (4, some ⟨200, some (.str "ok")⟩) ∧
    make_request .GET ⟨200, some (.str "ok")⟩ = .ok (.str "ok") ∧
    (∀ (r : HttpResponse) (rest : List HttpResponse) (n : Nat),
      1 ≤ n → 400 ≤ r.status → r.status ≤ 499 →
      runAttempts quadsRetries.status_forcelist n (r :: rest) = (1, some r)) ∧
    (∀ (url2 : String) (r : HttpResponse) (rest : List HttpResponse),
      mountedRetries url2 = none →
      runSessionAttempts url2 (r :: rest) = (1, some r)) ∧
    quadsRetries.total = 5 ∧
    backoffTime quadsRetries 0 = 1 ∧
    (∀ k, backoffTime quadsRetries (k + 1) = 2 * backoffTime quadsRetries k) :=
  c3_retry_policy .GET "http://quads.example.com/api/v3/" (by decide)
    ⟨503, none⟩ ⟨503, none⟩ ⟨503, none⟩
    ⟨200, some (.str "ok")⟩ (.str "ok") rfl rfl rfl rfl rfl

/-- C7: each filter operation issues a GET whose URL is its collection path,
a question mark, and urlencode of the mapping; urlencode of the empty
mapping is empty (so the URL keeps a trailing question mark with no
parameters); and the encoding is the standard one: safe characters pass
through, a space becomes a plus, and any other character is percent-encoded
from its UTF-8 bytes. -/
theorem c7_filter_query_encoding (m : List (String × String)) :
    filter_hosts_request m = (.GET, "hosts?" ++ urlencode m) ∧
    filter_clouds_request m = (.GET, "clouds?" ++ urlencode m) ∧
    filter_assignments_request m = (.GET, "assignments?" ++ urlencode m) ∧
    filter_available_request m = (.GET, "available?" ++ urlencode m) ∧
    urlencode [] = "" ∧
    filter_hosts_request [] = (.GET, "hosts?") ∧
    quote_plus " " = "+" ∧
    quote_plus "a&b=c" = "a%26b%3Dc" ∧
    (∀ c, isAlwaysSafe c = true → quote_plus (String.mk [c]) = String.mk [c]) ∧
    (∀ c, isAlwaysSafe c = false → c ≠ ' ' →
      quote_plus (String.mk [c]) =
        String.mk ((utf8Bytes c).flatMap percentByte)) := by
  refine ⟨rfl, rfl, rfl, rfl, rfl, rfl, rfl, rfl, ?_, ?_⟩
  · intro c h
    simp [quote_plus, h]
  · intro c h h2
    simp [quote_plus, h, h2]

/-- Witness for C7: a concrete mapping with a space in the value encodes the
space as a plus, and the ampersand character percent-encodes. -/
theorem c7_filter_query_encoding_witness :
    filter_hosts_request [("model", "R640 X")] = (.GET, "hosts?model=R640+X") ∧
    quote_plus (String.mk ['&']) =
      String.mk ((utf8Bytes '&').flatMap percentByte) := by
  refine ⟨?_, (c7_filter_query_encoding []).2.2.2.2.2.2.2.2.2 '&' rfl
    (by decide)⟩
  have h := (c7_filter_query_encoding [("model", "R640 X")]).1
  rw [h]
  rfl

lemma matchesHead_iff (n : List Char) : ∀ h : List Char,
    matchesHead n h = true ↔ ∃ t, n ++ t = h := by
  induction n with
  | nil =>
    intro h
    simp [matchesHead]
  | cons a as ih =>
    intro h
    cases h with
    | nil =>
      simp [matchesHead]
    | cons b bs =>
      simp only [matchesHead, Bool.and_eq_true, decide_eq_true_eq, ih,
        List.cons_append, List.cons.injEq]
      constructor
      · rintro ⟨rfl, t, rfl⟩
        exact ⟨t, rfl, rfl⟩
      · rintro ⟨t, rfl, rfl⟩
        exact ⟨rfl, t, rfl⟩

lemma substrSearch_iff (n : List Char) : ∀ h : List Char,
    substrSearch n h = true ↔ ∃ pre post, h = pre ++ n ++ post := by
  intro h
  induction h with
  | nil =>
    simp only [substrSearch, matchesHead_iff]
    constructor
    · rintro ⟨t, ht⟩
      rcases List.append_eq_nil.mp ht with ⟨rfl, rfl⟩
      exact ⟨[], [], rfl⟩
    · rintro ⟨pre, post, hp⟩
      rcases List.append_eq_nil.mp hp.symm with ⟨hl, rfl⟩
      rcases List.append_eq_nil.mp hl with ⟨rfl, rfl⟩
      exact ⟨[], rfl⟩
  | cons c rest ih =>
    simp only [substrSearch, Bool.or_eq_true, matchesHead_iff, ih]
    constructor
    · rintro (⟨t, ht⟩ | ⟨pre, post, rfl⟩)
      · exact ⟨[], t, by simp [ht]⟩
      · exact ⟨c :: pre, post, by simp⟩
    · rintro ⟨pre, post, hpp⟩
      cases pre with
      | nil =>
        exact Or.inl ⟨post, by simpa using hpp.symm⟩
      | cons p ps =>
        rcases List.cons.injEq .. ▸ hpp with ⟨rfl, hrest⟩
        exact Or.inr ⟨ps, post, hrest⟩

/-- C8: for every hostname and filter mapping, is_available returns True
exactly when the decoded JSON string value contains "true" as a substring,
and returns False otherwise, in particular on the value "false"; the
request it issues is a GET. -/
theorem c8_is_available_substring_check (hostname : String)
    (data : List (String × String)) (resp : String) :
    ((is_available_result resp = true) ↔
      ∃ pre post, resp.data = pre ++ "true".data ++ post) ∧
    is_available_result "false" = false ∧
    (is_available_request hostname data).1 = .GET := by
  refine ⟨?_, rfl, rfl⟩
  rw [show is_available_result resp = substrSearch "true".data resp.data from
    by simp [is_available_result]]
  exact substrSearch_iff "true".data resp.data

/-- C9: remove_memory, remove_disk and remove_processor join the raw
integer id onto a Path, which is a TypeError for every integer id, so none
of them ever produces a request. -/
theorem c9_remove_by_int_id_type_error (memory_id disk_id processor_id : Int)
    (hostname : String) :
    remove_memory memory_id = .error "TypeError" ∧
    remove_disk hostname disk_id = .error "TypeError" ∧
    remove_processor processor_id = .error "TypeError" ∧
    (∀ req, remove_memory memory_id ≠ .ok req) ∧
    (∀ req, remove_disk hostname disk_id ≠ .ok req) ∧
    (∀ req, remove_processor processor_id ≠ .ok req) := by
  refine ⟨rfl, rfl, rfl, ?_, ?_, ?_⟩ <;>
    intro req h <;> simp [remove_memory, remove_disk, remove_processor,
      pathDiv, Except.map, Except.bind] at h

/-- Witness for C8 at concrete inputs: the decoded value "a true b"
contains "true" and yields True, the decoded value "false" yields False. -/
theorem c8_is_available_substring_check_witness :
    is_available_result "a true b" = true ∧
    is_available_result "false" = false := by
  constructor
  · exact (c8_is_available_substring_check "h" [] "a true b").1.mpr
      ⟨"a ".data, " b".data, rfl⟩
  · exact (c8_is_available_substring_check "h" [] "false").2.1

lemma splitScheme_http (r : List Char) :
    splitScheme ('h' :: 't' :: 't' :: 'p' :: ':' :: '/' :: '/' :: r)
      = some (['h', 't', 't', 'p'], r) := rfl

lemma splitAuthority_no_slash (net : List Char) (h : '/' ∉ net) :
    splitAuthority net = (net, []) := by
  induction net with
  | nil => rfl
  | cons c rest ih =>
    have hc : ¬(c = '/') := fun hc => h (hc ▸ List.mem_cons_self c rest)
    have h2 : '/' ∉ rest := fun hm => h (List.mem_cons_of_mem c hm)
    simp [splitAuthority, hc, ih h2]

lemma splitAuthority_slash (net r : List Char) (h : '/' ∉ net) :
    splitAuthority (net ++ '/' :: r) = (net, '/' :: r) := by
  induction net with
  | nil => simp [splitAuthority]
  | cons c rest ih =>
    have hc : ¬(c = '/') := fun hc => h (hc ▸ List.mem_cons_self c rest)
    have h2 : '/' ∉ rest := fun hm => h (List.mem_cons_of_mem c hm)
    simp [splitAuthority, hc, ih h2]

/-- C5 counterexample: with base http://example.com/api (no trailing
slash), urljoin drops the base's last path segment, so join(base, "hosts")
differs from join(base + "/", "hosts"); and an endpoint with a leading
slash discards the base's path segment entirely. -/
theorem c5_counterexample :
    urljoin "http://example.com/api" "hosts" = "http://example.com/hosts" ∧
    urljoin ("http://example.com/api" ++ "/") "hosts" =
      "http://example.com/api/hosts" ∧
    urljoin "http://example.com/api" "hosts" ≠
      urljoin ("http://example.com/api" ++ "/") "hosts" ∧
    urljoin "http://example.com/api/" "/hosts" = "http://example.com/hosts" := by
  refine ⟨?_, ?_, ?_, ?_⟩ <;> decide

/-- C5 (amended): the join equation join(base, "hosts") =
join(base + "/", "hosts") holds when the base URL has an empty path
(http://netloc), where both give http://netloc/hosts; for a base with a
nonempty path not ending in a slash the last path segment is dropped, and a
leading-slash endpoint discards the base path, as the counterexample
records. -/
theorem c5_urljoin_empty_path (net : List Char) (hnet : '/' ∉ net) :
    urljoin (String.mk ('h' :: 't' :: 't' :: 'p' :: ':' :: '/' :: '/' :: net))
        "hosts" =
      urljoin (String.mk
        ('h' :: 't' :: 't' :: 'p' :: ':' :: '/' :: '/' :: net) ++ "/")
        "hosts" ∧
    urljoin (String.mk ('h' :: 't' :: 't' :: 'p' :: ':' :: '/' :: '/' :: net))
        "hosts" =
      String.mk ('h' :: 't' :: 't' :: 'p' :: ':' :: '/' :: '/' ::
        (net ++ '/' :: 'h' :: 'o' :: 's' :: 't' :: 's' :: [])) := by
  have e1 : urljoinChars ('h' :: 't' :: 't' :: 'p' :: ':' :: '/' :: '/' :: net)
      "hosts".data =
      'h' :: 't' :: 't' :: 'p' :: ':' :: '/' :: '/' ::
        (net ++ '/' :: 'h' :: 'o' :: 's' :: 't' :: 's' :: []) := by
    unfold urljoinChars
    rw [show "hosts".data = 'h' :: 'o' :: 's' :: 't' :: 's' :: [] from rfl,
      splitScheme_http]
    simp [splitAuthority_no_slash net hnet]
  have e2 : urljoinChars
      (('h' :: 't' :: 't' :: 'p' :: ':' :: '/' :: '/' :: net) ++ ['/'])
      "hosts".data =
      'h' :: 't' :: 't' :: 'p' :: ':' :: '/' :: '/' ::
        (net ++ '/' :: 'h' :: 'o' :: 's' :: 't' :: 's' :: []) := by
    have hb : ('h' :: 't' :: 't' :: 'p' :: ':' :: '/' :: '/' :: net) ++ ['/']
        = 'h' :: 't' :: 't' :: 'p' :: ':' :: '/' :: '/' :: (net ++ ['/']) := by
      simp
    rw [hb]
    unfold urljoinChars
    rw [show "hosts".data = 'h' :: 'o' :: 's' :: 't' :: 's' :: [] from rfl,
      splitScheme_http]
    rw [show (net ++ ['/'] : List Char) = net ++ '/' :: [] from rfl]
    simp [splitAuthority_slash net [] hnet, dropLastSeg]
  constructor
  · apply congrArg String.mk
    rw [show (String.mk ('h' :: 't' :: 't' :: 'p' :: ':' :: '/' :: '/' :: net)
      ++ "/").data
      = ('h' :: 't' :: 't' :: 'p' :: ':' :: '/' :: '/' :: net) ++ ['/']
      from rfl]
    rw [e1, e2]
  · exact congrArg String.mk e1

/-- Witness for C5 (amended) at the concrete netloc example.com. -/
theorem c5_urljoin_empty_path_witness :
    urljoin "http://example.com" "hosts" =
      urljoin ("http://example.com" ++ "/") "hosts" ∧
    urljoin "http://example.com" "hosts" = "http://example.com/hosts" := by
  have h := c5_urljoin_empty_path "example.com".data (by decide)
  exact h

/-- Witness for C6 (amended) at empty default headers. -/
theorem c6_request_credentials_witness :
    (∀ st m url, (request_sent st m url).usesBasicAuth = false) ∧
    (∀ st url, (login_request_sent st url).usesBasicAuth = true) ∧
    (∀ m url,
      headersLookup (request_sent (initState []) m url).headers
        "Authorization" = none) :=
  c6_request_credentials [] rfl

end QuadsLib
